import Mathlib

/-!
Shallow embedding of the cf-treeline-cli plugin (src/main.go).

The behavior of the plugin is a function of the invocation argument list and of
the environment it runs in: whether the delegated `treeline` executable is
on the search path, what the remote platform answers to each CLI call,
the filesystem, the package manager, and the spawned child process.  All
of these collaborators are captured in a `World` record of oracles; a run
produces an ordered trace of side effects (`List Effect`) together with an
`Outcome` (an explicit process exit, a normal fall-through return, or an
out-of-bounds index crash, which in Go is a runtime panic).
-/

/-- A service descriptor as returned by `cliConnection.GetServices()`:
a name and the list of application names bound to it. -/
structure Service where
  name : String
  applicationNames : List String
deriving DecidableEq

/-- One observable side effect of a run, in program order. -/
inductive Effect where
  /-- `fmt.Println` of a message to standard output. -/
  | println (msg : String)
  /-- a successful `ioutil.WriteFile` of `content` at `path`. -/
  | writeFile (path : String) (content : String)
  /-- a successful `os.Symlink(target, link)`. -/
  | symlink (target : String) (link : String)
  /-- running `npm install <pkg> --save --save-exact`. -/
  | npmInstall (pkg : String)
  /-- the `GetServices` (list-services) remote fetch. -/
  | getServices
  /-- a `cliConnection.CliCommand(args...)` remote platform call. -/
  | cliCommand (args : List String)
  /-- spawning the delegated `treeline` executable with the given args. -/
  | spawnTreeline (args : List String)
deriving DecidableEq

/-- How a run of the plugin terminates. -/
inductive Outcome where
  /-- an explicit `os.Exit code`. -/
  | exit (code : Nat)
  /-- `Run` returns normally; the host CLI then exits 0. -/
  | fallthrough
  /-- an out-of-bounds slice index: a Go runtime panic. -/
  | crash
deriving DecidableEq

/-- The trace of a run: its side effects in order and its outcome. -/
structure RunResult where
  effects : List Effect
  outcome : Outcome
deriving DecidableEq

/-- The environment a run executes in.  Each fallible external call is an
oracle: `none` means the call succeeds, `some e` means it fails with
error message `e`.  `childStatus` is the exit status of the spawned
delegated executable in passthrough mode (`cmd.Wait` in Go returns a
non-nil error exactly when the child exits nonzero). -/
structure World where
  treelineOnPath : Bool
  cfignoreExists : Bool
  symlinkErr : Option String
  writeFileErr : String → Option String
  npmErr : String → Option String
  getServicesResult : Except String (List Service)
  cliResult : List String → Option String
  startErr : Option String
  childStatus : Nat

/-- Sequence two effectful steps: if the first one exited, the second
never runs (it models `os.Exit` cutting the control flow). -/
def thenDo (a : List Effect × Option Outcome) (k : Unit → List Effect × Option Outcome) :
    List Effect × Option Outcome :=
  match a with
  | (fx, some o) => (fx, some o)
  | (fx, none) => (fx ++ (k ()).1, (k ()).2)

/-- Turn a step sequence into a `RunResult`, with `os.Exit(0)` at the end
of the branch when no earlier exit happened. -/
def finishExit0 (a : List Effect × Option Outcome) : RunResult :=
  match a with
  | (fx, some o) => ⟨fx, o⟩
  | (fx, none) => ⟨fx, Outcome.exit 0⟩

/-- One `ioutil.WriteFile` followed by the error check in
`writeDevelopmentConfig`: on failure print and exit 1, on success print
the `Updated ...` message. -/
def writeStep (w : World) (path content okMsg : String) :
    List Effect × Option Outcome :=
  match w.writeFileErr path with
  | some e => ([Effect.println ("Error writing configuration " ++ e)], some (Outcome.exit 1))
  | none => ([Effect.writeFile path content, Effect.println okMsg], none)

/-- Content of `config/env/development.js` exactly as in the Go raw
string literal (braces written `\x7b`/`\x7d`, apostrophes `\x27`). -/
def developmentConfig : String :=
  "\n/**\n * Development environment settings\n */\n\nif (process.env.VCAP_SERVICES) \x7b\n  vcapServices = JSON.parse(process.env.VCAP_SERVICES);\n\n  module.exports = \x7b\n\n    /***************************************************************************\n     * Set the default database connection for models in the development       *\n     * environment (see config/connections.js and config/models.js )           *\n     ***************************************************************************/\n\n    models: \x7b\n      connection: \x27sailsPsql\x27,\n      migrate: \x27drop\x27\n    \x7d,\n    connections: \x7b\n      sailsPsql: \x7b\n        adapter: \x27sails-postgresql\x27,\n        url: vcapServices.elephantsql[0].credentials.uri\n      \x7d\n    \x7d,\n\n    /***************************************************************************\n     * Session configuration                                                   *\n     ***************************************************************************/\n\n    session: \x7b\n      adapter: \x27redis\x27,\n      host: vcapServices.rediscloud[0].credentials.hostname,\n      port: vcapServices.rediscloud[0].credentials.port,\n      pass: vcapServices.rediscloud[0].credentials.password,\n      prefix: \x27sess:\x27,\n      // ttl: <redis session TTL in seconds>,\n      // db: 0,\n    \x7d,\n\n    /***************************************************************************\n     * WebSocket Configuration                                                 *\n     ***************************************************************************/\n\n    sockets: \x7b\n      adapter: \x27socket.io-redis\x27,\n      host: vcapServices.rediscloud[0].credentials.hostname,\n      port: vcapServices.rediscloud[0].credentials.port,\n      pass: vcapServices.rediscloud[0].credentials.password,\n      // db: \x27sails\x27,\n    \x7d,\n\n    /***************************************************************************\n     * Set the port in the development environment to 80                       *\n     ***************************************************************************/\n\n    port: process.env.PORT,\n\n    /***************************************************************************\n     * Set the log level in development environment to \"silent\"                *\n     ***************************************************************************/\n\n    log: \x7b\n       level: \"verbose\"\n    \x7d\n\n  \x7d;\n\x7d\n"

/-- Content of `config/local.js` exactly as in the Go raw string
literal. -/
def localConfig : String :=
  "\n/**\n * Local environment settings\n */\n\nmodule.exports = \x7b\n\n  /***************************************************************************\n   * Set the default database connection for models in the local             *\n   * environment (see config/connections.js and config/models.js )           *\n   ***************************************************************************/\n\n  models: \x7b\n    connection: \x27localDiskDb\x27,\n  \x7d,\n  connections: \x7b\n    localDiskDb: \x7b\n      adapter: \x27sails-disk\x27,\n    \x7d\n  \x7d,\n\n  /***************************************************************************\n   * Session configuration                                                   *\n   ***************************************************************************/\n\n  session: \x7b\n  \x7d,\n\n  /***************************************************************************\n   * WebSocket Configuration                                                 *\n   ***************************************************************************/\n\n  sockets: \x7b\n  \x7d,\n\n  /***************************************************************************\n   * Set the port in the development environment to 80                       *\n   ***************************************************************************/\n\n  port: process.env.PORT || 1337,\n\n  /***************************************************************************\n   * Set the log level in development environment to \"silent\"                *\n   ***************************************************************************/\n\n  log: \x7b\n     level: \"verbose\"\n  \x7d\n\n\x7d;\n"

/-- `writeDevelopmentConfig()`: write the development config, then the
local config, each checked once for an error (print + exit 1). -/
def writeDevelopmentConfig (w : World) : List Effect × Option Outcome :=
  thenDo (writeStep w "config/env/development.js" developmentConfig
      "Updated config/env/development.js") fun _ =>
    writeStep w "config/local.js" localConfig "Updated config/local.js"

/-- The `.cfignore` check in `Run`: if `.cfignore` does not exist, call
`os.Symlink(".gitignore", ".cfignore")`; a symlink failure prints the
cause and exits 1. -/
def symlinkStep (w : World) : List Effect × Option Outcome :=
  if w.cfignoreExists then ([], none)
  else
    match w.symlinkErr with
    | some e =>
        ([Effect.println ("Could not link .cfignore to .gitignore " ++ e)],
          some (Outcome.exit 1))
    | none => ([Effect.symlink ".gitignore" ".cfignore"], none)

/-- The fixed dependency list of `npmInstalls()`. -/
def packages : List String :=
  ["connect-redis@1.4.5", "sails-postgresql", "socket.io-redis"]

/-- One iteration of the `npmInstalls()` loop: run the install; a failure
is printed but is not fatal. -/
def npmInstallOne (w : World) (pkg : String) : List Effect :=
  Effect.npmInstall pkg ::
    (match w.npmErr pkg with
     | some e => [Effect.println ("Error installing npm packages " ++ e)]
     | none => [])

/-- `npmInstalls()`: install each package of the fixed list in order. -/
def npmInstalls (w : World) : List Effect :=
  (packages.map (npmInstallOne w)).flatten

/-- The `config-pws` branch of `Run`: write configs, maybe link
`.cfignore`, run the installs, exit 0. -/
def configPws (w : World) : RunResult :=
  finishExit0 (thenDo (writeDevelopmentConfig w) fun _ =>
    thenDo (symlinkStep w) fun _ => (npmInstalls w, none))

/-- The inner loop of `createServices`: scan the bound
application names for `"hackday-nc"`, starting from flag `b`. -/
def boundScan (b : Bool) (apps : List String) : Bool :=
  apps.foldl (fun acc app => if app == "hackday-nc" then true else acc) b

/-- One iteration of the service-scanning loop of `createServices`,
updating the `(redisFound, redisBound, sqlFound, sqlBound)` flags. -/
def scanStep (acc : Bool × Bool × Bool × Bool) (s : Service) :
    Bool × Bool × Bool × Bool :=
  let (rf, rb, sf, sb) := acc
  let (rf, rb) :=
    if s.name == "hackday-rediscloud" then (true, boundScan rb s.applicationNames)
    else (rf, rb)
  let (sf, sb) :=
    if s.name == "hackday-elephantsql" then (true, boundScan sb s.applicationNames)
    else (sf, sb)
  (rf, rb, sf, sb)

/-- The full scanning loop of `createServices`, all flags starting
`false`. -/
def scanServices (services : List Service) : Bool × Bool × Bool × Bool :=
  services.foldl scanStep (false, false, false, false)

/-- One `cliConnection.CliCommand(args...)` with the error check used
throughout `Run`/`createServices`: print the error and exit 1 on
failure. -/
def cliStep (w : World) (cargs : List String) : List Effect × Option Outcome :=
  match w.cliResult cargs with
  | some e => ([Effect.cliCommand cargs, Effect.println e], some (Outcome.exit 1))
  | none => ([Effect.cliCommand cargs], none)

/-- A CLI call guarded by a flag: skipped when `found` is already true
(the `if !redisFound \x7b ... \x7d` pattern). -/
def condCli (found : Bool) (w : World) (cargs : List String) :
    List Effect × Option Outcome :=
  if found then ([], none) else cliStep w cargs

/-- `createServices(cliConnection)`: fetch the services, scan them, then
issue the needed create-service (`cs`) and bind-service (`bs`) calls in
the source order redis-create, redis-bind, sql-create, sql-bind. -/
def createServices (w : World) : List Effect × Option Outcome :=
  match w.getServicesResult with
  | Except.error e =>
      ([Effect.getServices, Effect.println e], some (Outcome.exit 1))
  | Except.ok services =>
      let (rf, rb, sf, sb) := scanServices services
      let steps :=
        thenDo (condCli rf w ["cs", "rediscloud", "30mb", "hackday-rediscloud"]) fun _ =>
        thenDo (condCli rb w ["bs", "hackday-nc", "hackday-rediscloud"]) fun _ =>
        thenDo (condCli sf w ["cs", "elephantsql", "turtle", "hackday-elephantsql"]) fun _ =>
        condCli sb w ["bs", "hackday-nc", "hackday-elephantsql"]
      (Effect.getServices :: steps.1, steps.2)

/-- The `deploy` branch of `Run`: push, set-env, provision services,
start, each fatal on error; exit 0 at the end. -/
def deploy (w : World) : RunResult :=
  finishExit0 (thenDo (cliStep w ["push", "hackday-nc", "--no-start"]) fun _ =>
    thenDo (cliStep w ["set-env", "hackday-nc", "NODE_ENV", "development"]) fun _ =>
    thenDo (createServices w) fun _ =>
    cliStep w ["start", "hackday-nc"])

/-- The passthrough branch of `Run`: spawn `treeline args[1:]`, print and
exit 1 when the start fails or the child exits nonzero, otherwise return
normally. -/
def passthrough (w : World) (tailArgs : List String) : RunResult :=
  match w.startErr with
  | some e =>
      ⟨[Effect.println ("Error starting command " ++ e)], Outcome.exit 1⟩
  | none =>
      if w.childStatus == 0 then ⟨[Effect.spawnTreeline tailArgs], Outcome.fallthrough⟩
      else
        ⟨[Effect.spawnTreeline tailArgs,
            Effect.println ("Error running command exit status " ++ toString w.childStatus)],
          Outcome.exit 1⟩

/-- `TreelineCli.Run`: the top-level dispatcher.  Indexing `args[0]` or
`args[1]` out of bounds is a Go panic (`Outcome.crash`). -/
def Run (w : World) (args : List String) : RunResult :=
  match args with
  | [] => ⟨[], Outcome.crash⟩
  | a0 :: rest =>
    if a0 == "treeline" then
      if w.treelineOnPath then
        match rest with
        | [] => ⟨[], Outcome.crash⟩
        | a1 :: tl =>
          if a1 == "config-pws" then configPws w
          else if a1 == "deploy" then deploy w
          else passthrough w (a1 :: tl)
      else
        ⟨[Effect.println "Please install treeline using \x27npm install -g treeline\x27"],
          Outcome.exit 1⟩
    else ⟨[], Outcome.fallthrough⟩

/-- Is this effect a create-service (`cs`) platform call? -/
def Effect.isCreateService : Effect → Bool
  | Effect.cliCommand args => args.head? == some "cs"
  | _ => false

/-- Is this effect a bind-service (`bs`) platform call? -/
def Effect.isBindService : Effect → Bool
  | Effect.cliCommand args => args.head? == some "bs"
  | _ => false

/-- Is this effect a remote platform mutation (create or bind)? -/
def Effect.isMutation (e : Effect) : Bool :=
  e.isCreateService || e.isBindService

/-- Is this effect a package install? -/
def Effect.isNpmInstall : Effect → Bool
  | Effect.npmInstall _ => true
  | _ => false

/-- Is this effect a symbolic-link creation? -/
def Effect.isSymlink : Effect → Bool
  | Effect.symlink _ _ => true
  | _ => false

/-- Does this effect create the `.cfignore` path? -/
def Effect.makesCfignore : Effect → Bool
  | Effect.symlink _ link => link == ".cfignore"
  | Effect.writeFile path _ => path == ".cfignore"
  | _ => false

/-- Does a trace ever create `.cfignore`? -/
def mkCfignore (fx : List Effect) : Bool :=
  fx.any Effect.makesCfignore

/-- The process exit status an outcome produces: `os.Exit code` exits
with `code`, a normal return makes the host CLI exit 0, and a panic has
no well-defined plugin exit status here. -/
def exitCode : Outcome → Option Nat
  | Outcome.exit code => some code
  | Outcome.fallthrough => some 0
  | Outcome.crash => none

/-- Does the trace contain a bind-service call followed (strictly later)
by a create-service call? -/
def hasBindThenCreate : List Effect → Bool
  | [] => false
  | e :: rest => (e.isBindService && rest.any Effect.isCreateService) || hasBindThenCreate rest

/-- Apply one effect to a filesystem (path to content map): only a
successful file write changes it. -/
def applyOne (fs : String → Option String) : Effect → String → Option String
  | Effect.writeFile path content =>
      fun q => if q == path then some content else fs q
  | _ => fs

/-- Apply a trace of effects to a filesystem, in order. -/
def applyFx (fs : String → Option String) : List Effect → String → Option String
  | [] => fs
  | e :: rest => applyFx (applyOne fs e) rest

/-- The effect trace of a successful `config-pws` run. -/
def configFx (w : World) : List Effect :=
  [Effect.writeFile "config/env/development.js" developmentConfig,
   Effect.println "Updated config/env/development.js",
   Effect.writeFile "config/local.js" localConfig,
   Effect.println "Updated config/local.js"]
  ++ (if w.cfignoreExists then [] else [Effect.symlink ".gitignore" ".cfignore"])
  ++ npmInstalls w

/-- Does a redis-cache service of the fixed name appear? -/
def isRedisSvc (s : Service) : Bool :=
  s.name == "hackday-rediscloud"

/-- Is the fixed app bound to a redis-cache service of the fixed name? -/
def isRedisBoundSvc (s : Service) : Bool :=
  isRedisSvc s && s.applicationNames.any (fun a => a == "hackday-nc")

/-- Does a relational-database service of the fixed name appear? -/
def isSqlSvc (s : Service) : Bool :=
  s.name == "hackday-elephantsql"

/-- Is the fixed app bound to a database service of the fixed name? -/
def isSqlBoundSvc (s : Service) : Bool :=
  isSqlSvc s && s.applicationNames.any (fun a => a == "hackday-nc")

/-- Rebuild the world for a second run: the filesystem state that the
first run can change is whether `.cfignore` exists (and what a fresh
symlink attempt would now return); everything else is unchanged. -/
def afterConfigWorld (w : World) (cfignoreNow : Bool) (symlinkErrNow : Option String) : World :=
  ⟨w.treelineOnPath, cfignoreNow, symlinkErrNow, w.writeFileErr, w.npmErr,
    w.getServicesResult, w.cliResult, w.startErr, w.childStatus⟩

/-- A benign environment: tool on path, everything succeeds, no services
provisioned yet, child exits 0. -/
def okWorld : World :=
  ⟨true, false, none, fun _ => none, fun _ => none, Except.ok [], fun _ => none, none, 0⟩

/-- The delegated tool is absent from the search path. -/
def missingToolWorld : World :=
  ⟨false, false, none, fun _ => none, fun _ => none, Except.ok [], fun _ => none, none, 0⟩

/-- A benign environment whose passthrough child exits with status 2. -/
def statusWorld : World :=
  ⟨true, false, none, fun _ => none, fun _ => none, Except.ok [], fun _ => none, none, 2⟩

/-- The cache service exists but is not bound to the app, and the
database service does not exist at all. -/
def unboundRedisWorld : World :=
  ⟨true, false, none, fun _ => none, fun _ => none,
    Except.ok [⟨"hackday-rediscloud", []⟩], fun _ => none, none, 0⟩

/-- The platform rejects the push call and nothing else. -/
def pushFailWorld : World :=
  ⟨true, false, none, fun _ => none, fun _ => none, Except.ok [],
    fun c => if c == ["push", "hackday-nc", "--no-start"] then some "push failed" else none,
    none, 0⟩

/-- Both fixed services exist and are already bound to the app. -/
def allBoundWorld : World :=
  ⟨true, false, none, fun _ => none, fun _ => none,
    Except.ok [⟨"hackday-rediscloud", ["hackday-nc"]⟩,
               ⟨"hackday-elephantsql", ["hackday-nc"]⟩],
    fun _ => none, none, 0⟩

/-- The middle package install fails; everything else succeeds. -/
def npmFailWorld : World :=
  ⟨true, false, none, fun _ => none,
    fun p => if p == "sails-postgresql" then some "boom" else none,
    Except.ok [], fun _ => none, none, 0⟩

lemma boundScan_cons (b : Bool) (a : String) (apps : List String) :
    boundScan b (a :: apps) = boundScan (if a == "hackday-nc" then true else b) apps := rfl

lemma boundScan_eq (apps : List String) :
    ∀ b : Bool, boundScan b apps = (b || apps.any (fun a => a == "hackday-nc")) := by
  induction apps with
  | nil => intro b; simp [boundScan]
  | cons a apps ih =>
      intro b
      rw [boundScan_cons, ih, List.any_cons]
      cases h : (a == "hackday-nc") <;> simp [h]

lemma scanStep_eq (acc : Bool × Bool × Bool × Bool) (s : Service) :
    scanStep acc s =
      (acc.1 || isRedisSvc s,
       acc.2.1 || isRedisBoundSvc s,
       acc.2.2.1 || isSqlSvc s,
       acc.2.2.2 || isSqlBoundSvc s) := by
  obtain ⟨rf, rb, sf, sb⟩ := acc
  simp only [scanStep, isRedisSvc, isRedisBoundSvc, isSqlSvc, isSqlBoundSvc]
  by_cases hr : s.name == "hackday-rediscloud" <;>
    by_cases hs : s.name == "hackday-elephantsql" <;>
    simp [hr, hs, boundScan_eq]

lemma scanAux_eq (l : List Service) :
    ∀ acc : Bool × Bool × Bool × Bool,
      l.foldl scanStep acc =
        (acc.1 || l.any isRedisSvc,
         acc.2.1 || l.any isRedisBoundSvc,
         acc.2.2.1 || l.any isSqlSvc,
         acc.2.2.2 || l.any isSqlBoundSvc) := by
  induction l with
  | nil => intro acc; simp
  | cons s l ih =>
      intro acc
      rw [List.foldl_cons, scanStep_eq, ih]
      simp [List.any_cons, Bool.or_assoc]

lemma scanServices_eq (l : List Service) :
    scanServices l =
      (l.any isRedisSvc, l.any isRedisBoundSvc, l.any isSqlSvc, l.any isSqlBoundSvc) := by
  simp [scanServices, scanAux_eq]

lemma applyFx_cons (fs : String → Option String) (e : Effect) (l : List Effect) :
    applyFx fs (e :: l) = applyFx (applyOne fs e) l := rfl

lemma applyFx_append (a b : List Effect) :
    ∀ fs : String → Option String, applyFx fs (a ++ b) = applyFx (applyFx fs a) b := by
  induction a with
  | nil => intro fs; rfl
  | cons e a ih =>
      intro fs
      rw [List.cons_append, applyFx_cons, ih, applyFx_cons]

lemma applyFx_npmInstallOne (w : World) (pkg : String) (fs : String → Option String) :
    applyFx fs (npmInstallOne w pkg) = fs := by
  cases h : w.npmErr pkg <;> simp [npmInstallOne, h, applyFx, applyOne]

lemma applyFx_npmInstalls (w : World) (fs : String → Option String) :
    applyFx fs (npmInstalls w) = fs := by
  simp only [npmInstalls, packages, List.map_cons, List.map_nil, List.flatten,
    List.append_nil, applyFx_append, applyFx_npmInstallOne]

lemma mkCfignore_npmInstallOne (w : World) (pkg : String) :
    (npmInstallOne w pkg).any Effect.makesCfignore = false := by
  cases h : w.npmErr pkg <;> simp [npmInstallOne, h, Effect.makesCfignore]

lemma filter_npmInstallOne (w : World) (pkg : String) :
    (npmInstallOne w pkg).filter Effect.isNpmInstall = [Effect.npmInstall pkg] := by
  cases h : w.npmErr pkg <;> simp [npmInstallOne, h, Effect.isNpmInstall, List.filter]

lemma Run_not_treeline (w : World) (a0 : String) (rest : List String)
    (h : ¬ a0 = "treeline") :
    Run w (a0 :: rest) = ⟨[], Outcome.fallthrough⟩ := by
  simp [Run, h]

lemma Run_tool_missing (w : World) (rest : List String)
    (h : w.treelineOnPath = false) :
    Run w ("treeline" :: rest) =
      ⟨[Effect.println "Please install treeline using \x27npm install -g treeline\x27"],
        Outcome.exit 1⟩ := by
  simp [Run, h]

lemma Run_bare (w : World) (h : w.treelineOnPath = true) :
    Run w ["treeline"] = ⟨[], Outcome.crash⟩ := by
  simp [Run, h]

lemma Run_configPws (w : World) (tl : List String) (h : w.treelineOnPath = true) :
    Run w ("treeline" :: "config-pws" :: tl) = configPws w := by
  simp [Run, h]

lemma Run_deploy (w : World) (tl : List String) (h : w.treelineOnPath = true) :
    Run w ("treeline" :: "deploy" :: tl) = deploy w := by
  simp [Run, h]

lemma Run_passthrough (w : World) (a1 : String) (tl : List String)
    (h : w.treelineOnPath = true) (h1 : ¬ a1 = "config-pws") (h2 : ¬ a1 = "deploy") :
    Run w ("treeline" :: a1 :: tl) = passthrough w (a1 :: tl) := by
  simp [Run, h, h1, h2]

lemma configPws_run (w : World)
    (h1 : w.writeFileErr "config/env/development.js" = none)
    (h2 : w.writeFileErr "config/local.js" = none)
    (h3 : w.cfignoreExists = true ∨ w.symlinkErr = none) :
    configPws w = ⟨configFx w, Outcome.exit 0⟩ := by
  have hsym : symlinkStep w =
      ((if w.cfignoreExists then [] else [Effect.symlink ".gitignore" ".cfignore"]), none) := by
    rcases h3 with hc | hs
    · simp [symlinkStep, hc]
    · cases hc : w.cfignoreExists <;> simp [symlinkStep, hc, hs]
  simp [configPws, writeDevelopmentConfig, writeStep, h1, h2, hsym, thenDo,
    finishExit0, configFx]

lemma createServices_all_bound (w : World) (l : List Service)
    (hg : w.getServicesResult = Except.ok l)
    (hsc : scanServices l = (true, true, true, true)) :
    createServices w = ([Effect.getServices], none) := by
  simp [createServices, hg, hsc, condCli, thenDo]

lemma deploy_push_fails (w : World) (e : String)
    (hp : w.cliResult ["push", "hackday-nc", "--no-start"] = some e) :
    deploy w =
      ⟨[Effect.cliCommand ["push", "hackday-nc", "--no-start"], Effect.println e],
        Outcome.exit 1⟩ := by
  simp [deploy, cliStep, hp, thenDo, finishExit0]

lemma thenDo_filter_sublist (p : Effect → Bool) (a : List Effect × Option Outcome)
    (k : Unit → List Effect × Option Outcome) (x y : List Effect)
    (ha : (a.1.filter p).Sublist x) (hk : (((k ()).1).filter p).Sublist y) :
    ((thenDo a k).1.filter p).Sublist (x ++ y) := by
  obtain ⟨fx, o⟩ := a
  cases o with
  | some o => simpa [thenDo] using ha.trans (List.sublist_append_left x y)
  | none =>
      simp only [thenDo, List.filter_append]
      exact List.Sublist.append ha hk

lemma condCli_filter_mutation (flag : Bool) (w : World) (cargs : List String) :
    (((condCli flag w cargs).1).filter Effect.isMutation).Sublist
      [Effect.cliCommand cargs] := by
  cases flag with
  | true => simp [condCli]
  | false =>
      cases h : w.cliResult cargs with
      | none => simp [condCli, cliStep, h]
      | some e =>
          have hpr : Effect.isMutation (Effect.println e) = false := rfl
          simp only [condCli, cliStep, h, if_neg, Bool.false_eq_true, not_false_iff,
            List.filter_cons, hpr, List.filter_nil, if_false, ite_false]
          cases hm : Effect.isMutation (Effect.cliCommand cargs) <;> simp

/-- C4 (amended): the remote mutations of the provisioner are issued grouped
per service in the fixed source order cache-create, cache-bind,
database-create, database-bind, each present only when needed; hence the
create for a given service always precedes the bind for the same
service, but a cache-service bind may precede the database create. -/
theorem treeline_mutations_per_service_order (w : World) :
    (((createServices w).1).filter Effect.isMutation).Sublist
      [Effect.cliCommand ["cs", "rediscloud", "30mb", "hackday-rediscloud"],
       Effect.cliCommand ["bs", "hackday-nc", "hackday-rediscloud"],
       Effect.cliCommand ["cs", "elephantsql", "turtle", "hackday-elephantsql"],
       Effect.cliCommand ["bs", "hackday-nc", "hackday-elephantsql"]] := by
  cases hg : w.getServicesResult with
  | error e =>
      simp [createServices, hg, List.filter, Effect.isMutation, Effect.isCreateService,
        Effect.isBindService]
  | ok l =>
      rcases hsc : scanServices l with ⟨rf, rb, sf, sb⟩
      have hmain :
          ((createServices w).1).filter Effect.isMutation =
            (((thenDo (condCli rf w ["cs", "rediscloud", "30mb", "hackday-rediscloud"]) fun _ =>
              thenDo (condCli rb w ["bs", "hackday-nc", "hackday-rediscloud"]) fun _ =>
              thenDo (condCli sf w ["cs", "elephantsql", "turtle", "hackday-elephantsql"]) fun _ =>
              condCli sb w ["bs", "hackday-nc", "hackday-elephantsql"]).1).filter
              Effect.isMutation) := by
        have hget : Effect.isMutation Effect.getServices = false := rfl
        simp [createServices, hg, hsc, List.filter_cons, hget]
      rw [hmain]
      have h34 := thenDo_filter_sublist Effect.isMutation
        (condCli sf w ["cs", "elephantsql", "turtle", "hackday-elephantsql"])
        (fun _ => condCli sb w ["bs", "hackday-nc", "hackday-elephantsql"]) _ _
        (condCli_filter_mutation sf w ["cs", "elephantsql", "turtle", "hackday-elephantsql"])
        (condCli_filter_mutation sb w ["bs", "hackday-nc", "hackday-elephantsql"])
      have h234 := thenDo_filter_sublist Effect.isMutation
        (condCli rb w ["bs", "hackday-nc", "hackday-rediscloud"])
        (fun _ => thenDo (condCli sf w ["cs", "elephantsql", "turtle", "hackday-elephantsql"])
          fun _ => condCli sb w ["bs", "hackday-nc", "hackday-elephantsql"]) _ _
        (condCli_filter_mutation rb w ["bs", "hackday-nc", "hackday-rediscloud"]) h34
      have h1234 := thenDo_filter_sublist Effect.isMutation
        (condCli rf w ["cs", "rediscloud", "30mb", "hackday-rediscloud"])
        (fun _ => thenDo (condCli rb w ["bs", "hackday-nc", "hackday-rediscloud"]) fun _ =>
          thenDo (condCli sf w ["cs", "elephantsql", "turtle", "hackday-elephantsql"])
            fun _ => condCli sb w ["bs", "hackday-nc", "hackday-elephantsql"]) _ _
        (condCli_filter_mutation rf w ["cs", "rediscloud", "30mb", "hackday-rediscloud"]) h234
      simpa using h1234

lemma isSymlink_npmInstallOne (w : World) (pkg : String) :
    (npmInstallOne w pkg).any Effect.isSymlink = false := by
  cases h : w.npmErr pkg <;> simp [npmInstallOne, h, Effect.isSymlink]

lemma applyFx_configFx (w : World) (fs : String → Option String) :
    applyFx fs (configFx w) "config/env/development.js" = some developmentConfig ∧
    applyFx fs (configFx w) "config/local.js" = some localConfig := by
  constructor <;>
    (simp only [configFx, applyFx_append, applyFx_npmInstalls]
     cases hc : w.cfignoreExists <;> simp [applyFx, applyOne])

lemma mkCfignore_configFx (w : World) (hc : w.cfignoreExists = false) :
    mkCfignore (configFx w) = true := by
  simp [mkCfignore, configFx, hc, List.any_append, Effect.makesCfignore,
    npmInstalls, packages, mkCfignore_npmInstallOne]

/-- C2: once the top-level command is `treeline` and the delegated
executable is not resolvable, the run prints only the installation
instruction and exits 1, for every subcommand (including `config-pws`,
`deploy`, and none at all), with no other side effect. -/
theorem treeline_missing_tool_exits_one (w : World) (rest : List String)
    (h : w.treelineOnPath = false) :
    Run w ("treeline" :: rest) =
      ⟨[Effect.println "Please install treeline using \x27npm install -g treeline\x27"],
        Outcome.exit 1⟩ :=
  Run_tool_missing w rest h

/-- C2 witness: a concrete run with the tool missing and subcommand
`deploy`. -/
theorem treeline_missing_tool_exits_one_instance :
    missingToolWorld.treelineOnPath = false ∧
    Run missingToolWorld ["treeline", "deploy"] =
      ⟨[Effect.println "Please install treeline using \x27npm install -g treeline\x27"],
        Outcome.exit 1⟩ :=
  ⟨rfl, treeline_missing_tool_exits_one missingToolWorld ["deploy"] rfl⟩

/-- C9: an invocation whose argument 0 is not `treeline` produces no
side effects and falls through without an explicit exit. -/
theorem treeline_other_command_noop (w : World) (a0 : String) (rest : List String)
    (h : ¬ a0 = "treeline") :
    Run w (a0 :: rest) = ⟨[], Outcome.fallthrough⟩ :=
  Run_not_treeline w a0 rest h

/-- C9 witness: a concrete foreign command. -/
theorem treeline_other_command_noop_instance :
    ¬ "push" = "treeline" ∧ Run okWorld ["push", "myapp"] = ⟨[], Outcome.fallthrough⟩ :=
  ⟨by decide, treeline_other_command_noop okWorld "push" ["myapp"] (by decide)⟩

/-- C10: invoking just `treeline` (a one-element argument list) with the
delegated tool present reads `args[1]` out of bounds: the run performs
no side effect and crashes (a Go panic) instead of exiting 0 or 1. -/
theorem treeline_bare_invocation_crashes (w : World) (h : w.treelineOnPath = true) :
    Run w ["treeline"] = ⟨[], Outcome.crash⟩ :=
  Run_bare w h

/-- C10 witness: the crash in a concrete benign environment. -/
theorem treeline_bare_invocation_crashes_instance :
    okWorld.treelineOnPath = true ∧ Run okWorld ["treeline"] = ⟨[], Outcome.crash⟩ :=
  ⟨rfl, treeline_bare_invocation_crashes okWorld rfl⟩

/-- C5: when the push call of `deploy` fails, the trace is exactly the
push attempt and the printed error — no set-env, no list-services, no
create/bind, no start — and the run exits 1. -/
theorem treeline_deploy_push_failure_aborts (w : World) (tl : List String) (e : String)
    (htp : w.treelineOnPath = true)
    (hp : w.cliResult ["push", "hackday-nc", "--no-start"] = some e) :
    Run w ("treeline" :: "deploy" :: tl) =
      ⟨[Effect.cliCommand ["push", "hackday-nc", "--no-start"], Effect.println e],
        Outcome.exit 1⟩ := by
  rw [Run_deploy w tl htp, deploy_push_fails w e hp]

/-- C5 witness: a concrete failing push. -/
theorem treeline_deploy_push_failure_aborts_instance :
    Run pushFailWorld ["treeline", "deploy"] =
      ⟨[Effect.cliCommand ["push", "hackday-nc", "--no-start"],
        Effect.println "push failed"], Outcome.exit 1⟩ :=
  treeline_deploy_push_failure_aborts pushFailWorld [] "push failed" rfl rfl

/-- C4 counterexample: with the cache service present but unbound and
the database service absent, the provisioner issues the cache bind
before the database create, so the mutation sequence does contain a
bind-service call followed later by a create-service call. -/
theorem treeline_bind_before_create_cex :
    hasBindThenCreate (createServices unboundRedisWorld).1 = true := by decide

/-- C3 counterexample: with the child exiting with status 2, the
dispatcher does not terminate with the same exit status as the delegated
executable (it exits 1). -/
theorem treeline_passthrough_status_cex :
    exitCode (Run statusWorld ["treeline", "status"]).outcome ≠
      some statusWorld.childStatus := by
  decide

/-- C3 (amended): for an unrecognized subcommand the dispatcher forwards
exactly the tail arguments to the delegated executable, and exits 0 when
the child exits 0 and 1 when the child exits nonzero. -/
theorem treeline_passthrough_forwards_and_exit (w : World) (a1 : String) (tl : List String)
    (htp : w.treelineOnPath = true) (h1 : ¬ a1 = "config-pws") (h2 : ¬ a1 = "deploy")
    (hs : w.startErr = none) :
    (Run w ("treeline" :: a1 :: tl)).effects.head? =
      some (Effect.spawnTreeline (a1 :: tl)) ∧
    exitCode (Run w ("treeline" :: a1 :: tl)).outcome =
      some (if w.childStatus = 0 then 0 else 1) := by
  rw [Run_passthrough w a1 tl htp h1 h2]
  by_cases hz : w.childStatus = 0 <;> simp [passthrough, hs, hz, exitCode]

/-- C3 witness: forwarding and the 1-for-nonzero exit at a concrete
input. -/
theorem treeline_passthrough_forwards_and_exit_instance :
    (Run statusWorld ["treeline", "browse", "x"]).effects.head? =
      some (Effect.spawnTreeline ["browse", "x"]) ∧
    exitCode (Run statusWorld ["treeline", "browse", "x"]).outcome = some 1 := by
  have h := treeline_passthrough_forwards_and_exit statusWorld "browse" ["x"]
    rfl (by decide) (by decide) rfl
  simpa using h

/-- C1: when both fixed services already exist and already list the
target app among their bound application names, the trace of the provisioner
is exactly the list-services fetch (zero create-service and zero
bind-service calls), and the surrounding deploy (with push and set-env
succeeding) still issues push, set-env and start. -/
theorem treeline_deploy_idempotent_provisioner (w : World) (l : List Service)
    (tl : List String)
    (htp : w.treelineOnPath = true)
    (hg : w.getServicesResult = Except.ok l)
    (hrb : l.any isRedisBoundSvc = true)
    (hsb : l.any isSqlBoundSvc = true)
    (hpush : w.cliResult ["push", "hackday-nc", "--no-start"] = none)
    (hsetenv : w.cliResult ["set-env", "hackday-nc", "NODE_ENV", "development"] = none) :
    createServices w = ([Effect.getServices], none) ∧
    (Run w ("treeline" :: "deploy" :: tl)).effects.filter Effect.isMutation = [] ∧
    Effect.cliCommand ["push", "hackday-nc", "--no-start"] ∈
      (Run w ("treeline" :: "deploy" :: tl)).effects ∧
    Effect.cliCommand ["set-env", "hackday-nc", "NODE_ENV", "development"] ∈
      (Run w ("treeline" :: "deploy" :: tl)).effects ∧
    Effect.cliCommand ["start", "hackday-nc"] ∈
      (Run w ("treeline" :: "deploy" :: tl)).effects := by
  have hrf : l.any isRedisSvc = true := by
    rw [List.any_eq_true] at hrb ⊢
    obtain ⟨s, hsmem, hsp⟩ := hrb
    refine ⟨s, hsmem, ?_⟩
    rw [isRedisBoundSvc, Bool.and_eq_true] at hsp
    exact hsp.1
  have hsf : l.any isSqlSvc = true := by
    rw [List.any_eq_true] at hsb ⊢
    obtain ⟨s, hsmem, hsp⟩ := hsb
    refine ⟨s, hsmem, ?_⟩
    rw [isSqlBoundSvc, Bool.and_eq_true] at hsp
    exact hsp.1
  have hsc : scanServices l = (true, true, true, true) := by
    rw [scanServices_eq, hrf, hrb, hsf, hsb]
  have hcs := createServices_all_bound w l hg hsc
  refine ⟨hcs, ?_⟩
  rw [Run_deploy w tl htp]
  cases hst : w.cliResult ["start", "hackday-nc"] with
  | none =>
      simp [deploy, cliStep, hpush, hsetenv, hst, hcs, thenDo, finishExit0,
        Effect.isMutation, Effect.isCreateService, Effect.isBindService]
  | some e =>
      simp [deploy, cliStep, hpush, hsetenv, hst, hcs, thenDo, finishExit0,
        Effect.isMutation, Effect.isCreateService, Effect.isBindService]

/-- C1 witness: a concrete platform state with both services present and
bound. -/
theorem treeline_deploy_idempotent_provisioner_instance :
    createServices allBoundWorld = ([Effect.getServices], none) ∧
    (Run allBoundWorld ["treeline", "deploy"]).effects.filter Effect.isMutation = [] ∧
    Effect.cliCommand ["push", "hackday-nc", "--no-start"] ∈
      (Run allBoundWorld ["treeline", "deploy"]).effects ∧
    Effect.cliCommand ["set-env", "hackday-nc", "NODE_ENV", "development"] ∈
      (Run allBoundWorld ["treeline", "deploy"]).effects ∧
    Effect.cliCommand ["start", "hackday-nc"] ∈
      (Run allBoundWorld ["treeline", "deploy"]).effects :=
  treeline_deploy_idempotent_provisioner allBoundWorld
    [⟨"hackday-rediscloud", ["hackday-nc"]⟩, ⟨"hackday-elephantsql", ["hackday-nc"]⟩]
    [] rfl rfl (by decide) (by decide) rfl rfl

/-- C6: a successful `config-pws` run exits 0 and leaves, for any prior
filesystem contents, the two configuration files at their fixed relative
paths with contents equal to the fixed literal templates. -/
theorem treeline_configpws_writes_templates (w : World) (tl : List String)
    (fs : String → Option String)
    (htp : w.treelineOnPath = true)
    (h1 : w.writeFileErr "config/env/development.js" = none)
    (h2 : w.writeFileErr "config/local.js" = none)
    (h3 : w.cfignoreExists = true ∨ w.symlinkErr = none) :
    (Run w ("treeline" :: "config-pws" :: tl)).outcome = Outcome.exit 0 ∧
    applyFx fs (Run w ("treeline" :: "config-pws" :: tl)).effects
      "config/env/development.js" = some developmentConfig ∧
    applyFx fs (Run w ("treeline" :: "config-pws" :: tl)).effects
      "config/local.js" = some localConfig := by
  rw [Run_configPws w tl htp, configPws_run w h1 h2 h3]
  exact ⟨rfl, (applyFx_configFx w fs).1, (applyFx_configFx w fs).2⟩

/-- C6 witness: a concrete successful run over an empty prior
filesystem. -/
theorem treeline_configpws_writes_templates_instance :
    (Run okWorld ["treeline", "config-pws"]).outcome = Outcome.exit 0 ∧
    applyFx (fun _ => none) (Run okWorld ["treeline", "config-pws"]).effects
      "config/env/development.js" = some developmentConfig ∧
    applyFx (fun _ => none) (Run okWorld ["treeline", "config-pws"]).effects
      "config/local.js" = some localConfig :=
  treeline_configpws_writes_templates okWorld [] (fun _ => none) rfl rfl rfl (Or.inr rfl)

/-- C7: in a successful `config-pws` run, every one of the three fixed
package installs is attempted in order whatever the individual install
results are, each install failure is printed, and the command still
exits 0. -/
theorem treeline_configpws_install_failures_nonfatal (w : World) (tl : List String)
    (htp : w.treelineOnPath = true)
    (h1 : w.writeFileErr "config/env/development.js" = none)
    (h2 : w.writeFileErr "config/local.js" = none)
    (h3 : w.cfignoreExists = true ∨ w.symlinkErr = none) :
    (Run w ("treeline" :: "config-pws" :: tl)).outcome = Outcome.exit 0 ∧
    (Run w ("treeline" :: "config-pws" :: tl)).effects.filter Effect.isNpmInstall =
      [Effect.npmInstall "connect-redis@1.4.5", Effect.npmInstall "sails-postgresql",
       Effect.npmInstall "socket.io-redis"] ∧
    (∀ e, w.npmErr "connect-redis@1.4.5" = some e →
      Effect.println ("Error installing npm packages " ++ e) ∈
        (Run w ("treeline" :: "config-pws" :: tl)).effects) ∧
    (∀ e, w.npmErr "sails-postgresql" = some e →
      Effect.println ("Error installing npm packages " ++ e) ∈
        (Run w ("treeline" :: "config-pws" :: tl)).effects) ∧
    (∀ e, w.npmErr "socket.io-redis" = some e →
      Effect.println ("Error installing npm packages " ++ e) ∈
        (Run w ("treeline" :: "config-pws" :: tl)).effects) := by
  rw [Run_configPws w tl htp, configPws_run w h1 h2 h3]
  refine ⟨rfl, ?_, ?_, ?_, ?_⟩
  · have hif : (if w.cfignoreExists then ([] : List Effect)
        else [Effect.symlink ".gitignore" ".cfignore"]).filter Effect.isNpmInstall = [] := by
      cases hc : w.cfignoreExists <;> simp [Effect.isNpmInstall]
    simp [configFx, List.filter_append, hif, npmInstalls, packages, filter_npmInstallOne,
      Effect.isNpmInstall]
  all_goals
    intro e he
    simp [configFx, npmInstalls, packages, npmInstallOne, he]

/-- C7 witness: the middle install fails with `boom`; the run still
attempts all three installs in order, prints the failure, and exits 0. -/
theorem treeline_configpws_install_failures_nonfatal_instance :
    (Run npmFailWorld ["treeline", "config-pws"]).outcome = Outcome.exit 0 ∧
    (Run npmFailWorld ["treeline", "config-pws"]).effects.filter Effect.isNpmInstall =
      [Effect.npmInstall "connect-redis@1.4.5", Effect.npmInstall "sails-postgresql",
       Effect.npmInstall "socket.io-redis"] ∧
    Effect.println "Error installing npm packages boom" ∈
      (Run npmFailWorld ["treeline", "config-pws"]).effects := by
  have h := treeline_configpws_install_failures_nonfatal npmFailWorld []
    rfl rfl rfl (Or.inr rfl)
  exact ⟨h.1, h.2.1, h.2.2.2.1 "boom" rfl⟩

/-- C8: running `config-pws` twice in a row: after a successful first
run `.cfignore` exists, so the second run (whatever a fresh symlink
attempt would now return, e.g. an already-exists error) makes no
symlink attempt, exits 0, and both runs leave the two files with the
same (template) contents. -/
theorem treeline_configpws_idempotent (w : World) (tl : List String)
    (fs : String → Option String) (slErr : Option String)
    (htp : w.treelineOnPath = true)
    (h1 : w.writeFileErr "config/env/development.js" = none)
    (h2 : w.writeFileErr "config/local.js" = none)
    (h3 : w.cfignoreExists = true ∨ w.symlinkErr = none) :
    (w.cfignoreExists ||
      mkCfignore (Run w ("treeline" :: "config-pws" :: tl)).effects) = true ∧
    (Run (afterConfigWorld w
        (w.cfignoreExists ||
          mkCfignore (Run w ("treeline" :: "config-pws" :: tl)).effects) slErr)
      ("treeline" :: "config-pws" :: tl)).outcome = Outcome.exit 0 ∧
    (Run (afterConfigWorld w
        (w.cfignoreExists ||
          mkCfignore (Run w ("treeline" :: "config-pws" :: tl)).effects) slErr)
      ("treeline" :: "config-pws" :: tl)).effects.any Effect.isSymlink = false ∧
    applyFx fs (Run w ("treeline" :: "config-pws" :: tl)).effects
      "config/env/development.js" = some developmentConfig ∧
    applyFx fs (Run w ("treeline" :: "config-pws" :: tl)).effects
      "config/local.js" = some localConfig ∧
    applyFx (applyFx fs (Run w ("treeline" :: "config-pws" :: tl)).effects)
      (Run (afterConfigWorld w
          (w.cfignoreExists ||
            mkCfignore (Run w ("treeline" :: "config-pws" :: tl)).effects) slErr)
        ("treeline" :: "config-pws" :: tl)).effects
      "config/env/development.js" = some developmentConfig ∧
    applyFx (applyFx fs (Run w ("treeline" :: "config-pws" :: tl)).effects)
      (Run (afterConfigWorld w
          (w.cfignoreExists ||
            mkCfignore (Run w ("treeline" :: "config-pws" :: tl)).effects) slErr)
        ("treeline" :: "config-pws" :: tl)).effects
      "config/local.js" = some localConfig := by
  have hr1 : Run w ("treeline" :: "config-pws" :: tl) = ⟨configFx w, Outcome.exit 0⟩ := by
    rw [Run_configPws w tl htp, configPws_run w h1 h2 h3]
  have hflag : (w.cfignoreExists ||
      mkCfignore (Run w ("treeline" :: "config-pws" :: tl)).effects) = true := by
    rw [hr1]
    cases hc : w.cfignoreExists with
    | true => rfl
    | false => simp [mkCfignore_configFx w hc]
  rw [hflag]
  set w2 := afterConfigWorld w true slErr with hw2
  have hr2 : Run w2 ("treeline" :: "config-pws" :: tl) = ⟨configFx w2, Outcome.exit 0⟩ := by
    rw [Run_configPws w2 tl htp, configPws_run w2 h1 h2 (Or.inl rfl)]
  refine ⟨rfl, ?_, ?_, ?_, ?_, ?_, ?_⟩
  · rw [hr2]
  · rw [hr2]
    have hifsym : w2.cfignoreExists = true := rfl
    simp [configFx, List.any_append, hifsym, Effect.isSymlink, npmInstalls, packages,
      isSymlink_npmInstallOne]
  · rw [hr1]; exact (applyFx_configFx w fs).1
  · rw [hr1]; exact (applyFx_configFx w fs).2
  · rw [hr1, hr2]; exact (applyFx_configFx w2 (applyFx fs (configFx w))).1
  · rw [hr1, hr2]; exact (applyFx_configFx w2 (applyFx fs (configFx w))).2

/-- C8 witness: two concrete runs in a row; the second sees `.cfignore`
present and would get an already-exists error from a fresh symlink
attempt, yet makes no symlink attempt, exits 0 and leaves the same
contents. -/
theorem treeline_configpws_idempotent_instance :
    (okWorld.cfignoreExists ||
      mkCfignore (Run okWorld ["treeline", "config-pws"]).effects) = true ∧
    (Run (afterConfigWorld okWorld
        (okWorld.cfignoreExists ||
          mkCfignore (Run okWorld ["treeline", "config-pws"]).effects)
        (some "file exists")) ["treeline", "config-pws"]).outcome = Outcome.exit 0 ∧
    (Run (afterConfigWorld okWorld
        (okWorld.cfignoreExists ||
          mkCfignore (Run okWorld ["treeline", "config-pws"]).effects)
        (some "file exists")) ["treeline", "config-pws"]).effects.any Effect.isSymlink
      = false ∧
    applyFx (fun _ => none) (Run okWorld ["treeline", "config-pws"]).effects
      "config/env/development.js" = some developmentConfig ∧
    applyFx (applyFx (fun _ => none) (Run okWorld ["treeline", "config-pws"]).effects)
      (Run (afterConfigWorld okWorld
          (okWorld.cfignoreExists ||
            mkCfignore (Run okWorld ["treeline", "config-pws"]).effects)
          (some "file exists")) ["treeline", "config-pws"]).effects
      "config/env/development.js" = some developmentConfig := by
  have h := treeline_configpws_idempotent okWorld [] (fun _ => none) (some "file exists")
    rfl rfl rfl (Or.inr rfl)
  exact ⟨h.1, h.2.1, h.2.2.1, h.2.2.2.1, h.2.2.2.2.2.1⟩
